import Mathlib

/-!
Shallow embedding of the prediction post-processing and evaluation pipeline of
`meld_graph/evaluation.py` (class `Evaluator` and the module-level `sigmoid`),
together with proofs of the behavioural properties claimed for it.

Conventions used throughout:
* numpy float arrays are modelled as `List ℚ` (exact rational arithmetic);
  the NaN sentinel used for absent distance maps is modelled as `none` in
  `List (Option ℚ)`;
* hdf5 files are modelled as association lists from hierarchical keys
  `subject/hemisphere/dataset` to vertex arrays; a missing file is `none`;
* Python exceptions are modelled with `Except String`/`Option` results;
* the dynamic attribute namespace of the `Evaluator` object is modelled as an
  association list from attribute names to values, since two methods read a
  misspelled attribute name and their behaviour depends on exactly which
  names have been assigned;
* `scipy.sparse.csgraph.connected_components` is external to the repository;
  its output (a component count `nComp` and a component label per masked
  vertex) is passed to the clustering code as an arbitrary parameter, so all
  theorems about the clusterer hold for every adjacency structure.
-/

namespace MeldGraph

/-- Models `island_mask = mask.copy(); island_mask[mask] = include_vec`
(evaluation.py lines 790-791): positions where `mask` is `True` receive the
successive entries of `include_vec`, positions where `mask` is `False` keep
the value `False`. -/
def scatter : List Bool → List Bool → List Bool
  | [], _ => []
  | true :: ms, incl => incl.headD false :: scatter ms incl.tail
  | false :: ms, incl => false :: scatter ms incl

/-- Models `islands[island_mask] = island_count` (evaluation.py line 792):
stamp the id `cid` at every position selected by `scatter mask incl`. -/
def stampIsland (mask incl : List Bool) (cid : ℕ) (islands : List ℕ) : List ℕ :=
  List.zipWith (fun b old => if b then cid else old) (scatter mask incl) islands

/-- One iteration of the `for island_index in np.arange(n_comp)` loop of
`Evaluator.cluster_and_area_threshold` (evaluation.py lines 785-792), acting
on the state `(islands, island_count)`. -/
def clusterStep (mask : List Bool) (labels : List ℕ) (minArea : ℕ)
    (st : List ℕ × ℕ) (i : ℕ) : List ℕ × ℕ :=
  let includeVec := labels.map (fun l => decide (l = i))
  let size := includeVec.count true
  if minArea ≤ size then
    (stampIsland mask includeVec (st.2 + 1) st.1, st.2 + 1)
  else st

/-- `Evaluator.cluster_and_area_threshold` (evaluation.py lines 777-793),
returning both the `islands` vector and the final internal `island_count`.
`labels` and `nComp` stand for the output of
`scipy.sparse.csgraph.connected_components` on the mask-induced subgraph of
the adjacency matrix, passed in as parameters (see module docstring). -/
def cluster_and_area_threshold_full (mask : List Bool) (labels : List ℕ)
    (nComp islandCount minArea : ℕ) : List ℕ × ℕ :=
  (List.range nComp).foldl (clusterStep mask labels minArea)
    (List.replicate mask.length 0, islandCount)

/-- The `islands` vector returned by `Evaluator.cluster_and_area_threshold`
(the Python function returns only the vector; the count stays in the caller's
running variable). -/
def cluster_and_area_threshold (mask : List Bool) (labels : List ℕ)
    (nComp islandCount minArea : ℕ) : List ℕ :=
  (cluster_and_area_threshold_full mask labels nComp islandCount minArea).1

/-- `np.max` on a vector of non-negative ids (used at evaluation.py line 377:
`island_count += np.max(islands)`). -/
def npMax (xs : List ℕ) : ℕ := xs.foldl max 0

/-- The per-hemisphere clustering loop of `Evaluator.threshold_and_cluster`
(evaluation.py lines 371-377): the left hemisphere is clustered with
`island_count = 0`, the count is advanced by `np.max` of the left result, and
the right hemisphere is clustered with the advanced count.  The thresholded
boolean masks and the connected-component labelings are parameters. -/
def threshold_and_cluster_hemis (maskL maskR : List Bool) (labelsL labelsR : List ℕ)
    (nCompL nCompR minArea : ℕ) : List ℕ × List ℕ :=
  let islandsL := cluster_and_area_threshold maskL labelsL nCompL 0 minArea
  let islandCount := 0 + npMax islandsL
  let islandsR := cluster_and_area_threshold maskR labelsR nCompR islandCount minArea
  (islandsL, islandsR)

/-- The `eps = 1e-15` guard of `sigmoid` (evaluation.py line 900). -/
def sigEps : ℚ := 1 / 10 ^ 15

/-- The value `sigmoid` computes for a single input element when `k ≠ 0`
(the vectorized stages of evaluation.py lines 895-909 composed pointwise;
see `sigmoid_eq_map`). -/
def sigmoidElem (k : ℤ) (m ymin ymax xi : ℚ) : ℚ :=
  let xmax := m * 2
  let res := 1 / (1 + (1 / (xi / xmax + sigEps) - 1) ^ (-k))
  let scaled := res * (ymax - ymin) + ymin
  let clipped := if xmax < xi then ymin else scaled
  if ymax < clipped then ymax else clipped

/-- The module-level `sigmoid` function (evaluation.py lines 881-909) over
exact rationals, with the slope `k` an integer (it is used with the integral
values `k=2` by default and `k=1` from the optimisation grid).  The stages
mirror the numpy code: the `k == 0` early return, the inverse-sigmoid `res`,
the rescaling into `[ymin, ymax]`, the masked assignment
`scaled_res[x > xmax] = ymin`, and the final clamp
`scaled_res[scaled_res > ymax] = ymax`. -/
def sigmoid (x : List ℚ) (k : ℤ) (m ymin ymax : ℚ) : List ℚ :=
  let xmax := m * 2
  if k = 0 then x.map (fun _ => ymin)
  else
    let res := x.map (fun xi => 1 / (1 + (1 / (xi / xmax + sigEps) - 1) ^ (-k)))
    let scaledRes := res.map (fun r => r * (ymax - ymin) + ymin)
    let clipped := List.zipWith (fun xi s => if xmax < xi then ymin else s) x scaledRes
    clipped.map (fun s => if ymax < s then ymax else s)

/-- First-match association-list lookup (used for hdf5 keys, Python dict keys
and object attribute namespaces). -/
def lookupKey {α : Type} [DecidableEq α] {β : Type} : List (α × β) → α → Option β
  | [], _ => none
  | p :: st, k => if p.1 = k then some p.2 else lookupKey st k

/-- Hierarchical hdf5 key `subject/hemisphere/dataset_str`. -/
abbrev HKey : Type := String × String × String

/-- Contents of one `predictions{suffix}.hdf5` file. -/
abbrev HStore : Type := List (HKey × List ℚ)

/-- Overwrite-or-create of a dataset, as done by `f.require_dataset` followed
by `dset[:] = ...` (evaluation.py lines 746-748). -/
def storeSet (st : HStore) (k : HKey) (v : List ℚ) : HStore :=
  (k, v) :: st.filter (fun p => decide (p.1 ≠ k))

/-- The slice `prediction[i * nvert_hemi : (i + 1) * nvert_hemi]`
(evaluation.py line 748). -/
def hemiSlice (pred : List ℚ) (i nvert : ℕ) : List ℚ := (pred.drop (i * nvert)).take nvert

/-- `Evaluator.save_prediction` (evaluation.py lines 717-754).  `file` is the
content of `predictions{suffix}.hdf5` (`none` when the file does not exist;
opening with mode `"a"` then creates it).  The `assert len(prediction) ==
nvert_hemi * 2` is modelled by the `none` result (an `AssertionError`).  The
retry-on-`OSError` loop only repeats the write until it succeeds and does not
change the stored data, so it has no observable effect here. -/
def save_prediction (file : Option HStore) (subject : String) (prediction : List ℚ)
    (datasetStr : String) (nvertHemi : ℕ) : Option HStore :=
  if prediction.length = nvertHemi * 2 then
    let st0 := file.getD []
    let st1 := storeSet st0 (subject, "lh", datasetStr) (hemiSlice prediction 0 nvertHemi)
    let st2 := storeSet st1 (subject, "rh", datasetStr) (hemiSlice prediction 1 nvertHemi)
    some st2
  else none

/-- `Evaluator.load_prediction` (evaluation.py lines 756-775): returns `none`
when the file does not exist; reads the `lh` then the `rh` dataset and
concatenates them; a `KeyError` on either key is caught and turned into the
`None` result. -/
def load_prediction (file : Option HStore) (subject : String) (datasetStr : String) :
    Option (List ℚ) :=
  match file with
  | none => none
  | some st =>
    match lookupKey st (subject, "lh", datasetStr), lookupKey st (subject, "rh", datasetStr) with
    | some lh, some rh => some (lh ++ rh)
    | _, _ => none

/-- A value stored in an `Evaluator` attribute (only the dropout-related
attributes matter for the claims below). -/
inductive AttrVal : Type
  | boolV (b : Bool)
  | ratV (q : ℚ)
  | natV (n : ℕ)
  | strV (s : String)
deriving DecidableEq

/-- The dynamic attribute namespace of an `Evaluator` object. -/
abbrev Attrs : Type := List (String × AttrVal)

/-- Python `setattr` / `self.name = value` (first-match lookup makes the most
recent assignment win). -/
def setAttr (a : Attrs) (n : String) (v : AttrVal) : Attrs := (n, v) :: a

/-- Python attribute read: `AttributeError` when the name was never
assigned. -/
def getattr (a : Attrs) (n : String) : Except String AttrVal :=
  match lookupKey a n with
  | some v => .ok v
  | none => .error ("AttributeError: " ++ n)

/-- The string interpolation of an attribute value into an f-string (only
string values are ever interpolated by the code under study). -/
def attrValStr : AttrVal → String
  | .strV s => s
  | .boolV b => if b then "True" else "False"
  | .ratV _ => ""
  | .natV n => toString n

/-- `Evaluator.enable_mc_dropout` (evaluation.py lines 141-151): the
attribute assignments it performs. -/
def enable_mc_dropout (a : Attrs) (p : ℚ) (n : ℕ) : Attrs :=
  setAttr (setAttr (setAttr (setAttr a "dropout" (.boolV true)) "dropout_p" (.ratV p))
    "dropout_n" (.natV n)) "dropout_suffix" (.strV "_dropout")

/-- `Evaluator.disable_mc_dropout` (evaluation.py lines 153-156). -/
def disable_mc_dropout (a : Attrs) : Attrs :=
  setAttr (setAttr a "dropout" (.boolV false)) "dropout_suffix" (.strV "")

/-- The dropout-related calls a user can make on an `Evaluator` after
construction. -/
inductive DropoutOp : Type
  | enable (p : ℚ) (n : ℕ)
  | disable

def applyDropoutOp (a : Attrs) : DropoutOp → Attrs
  | .enable p n => enable_mc_dropout a p n
  | .disable => disable_mc_dropout a

/-- The attribute namespace of an `Evaluator` after `__init__` (which ends by
calling `disable_mc_dropout`, evaluation.py line 131) followed by any sequence
of enable/disable calls.  `init` holds whatever other attributes `__init__`
assigned; none of them is named `droput_suffix`. -/
def evaluator_attrs (init : Attrs) (ops : List DropoutOp) : Attrs :=
  ops.foldl applyDropoutOp (disable_mc_dropout init)

/-- `Evaluator.save_sub_aucs` (evaluation.py lines 298-305): it computes
`suffix = f"{suffix}{self.droput_suffix}"` — reading the misspelled
attribute name `droput_suffix` — and then writes
`sub_aucs{suffix}.pickle`.  The result is the filename it would write. -/
def save_sub_aucs (a : Attrs) (suffix : String) : Except String String :=
  match getattr a "droput_suffix" with
  | .ok v => .ok ("sub_aucs" ++ suffix ++ attrValStr v ++ ".pickle")
  | .error e => .error e

/-- `Evaluator.save_roc_scores` (evaluation.py lines 318-324): same misspelled
`droput_suffix` read, writing `roc_auc{suffix}.pickle`. -/
def save_roc_scores (a : Attrs) (suffix : String) : Except String String :=
  match getattr a "droput_suffix" with
  | .ok v => .ok ("roc_auc" ++ suffix ++ attrValStr v ++ ".pickle")
  | .error e => .error e

/-- The default `roc_curves_thresholds=np.linspace(0, 1, 51)` of
`Evaluator.load_predict_data` (evaluation.py line 182). -/
def default_roc_thresholds : List ℚ := (List.range 51).map (fun i => (i : ℚ) / 50)

/-- The tail of `Evaluator.load_predict_data` after the subject loop
(evaluation.py lines 287-291): if a threshold grid was given, aggregate the
AUCs (`calculate_aucs`, pure numerics on the accumulated curves) and call
`save_roc_scores()`; since the local `store_sub_aucs` is the literal `True`
(line 202, kept as a parameter here), then call `save_sub_aucs()`. -/
def load_predict_data_tail (a : Attrs) (rocThresholds : Option (List ℚ))
    (storeSubAucs : Bool) : Except String Unit :=
  match rocThresholds with
  | some _ =>
    match save_roc_scores a "" with
    | .error e => .error e
    | .ok _ =>
      if storeSubAucs then
        match save_sub_aucs a "" with
        | .error e => .error e
        | .ok _ => .ok ()
      else .ok ()
  | none =>
    if storeSubAucs then
      match save_sub_aucs a "" with
      | .error e => .error e
      | .ok _ => .ok ()
    else .ok ()

/-- numpy boolean-mask indexing `arr[mask]` (mask and array walked in
parallel, keeping the positions where the mask is true). -/
def maskBy {α : Type} : List Bool → List α → List α
  | [], _ => []
  | _ :: _, [] => []
  | b :: ms, v :: vs => if b then v :: maskBy ms vs else maskBy ms vs

/-- The `number clusters` value computed by `Evaluator.stat_subjects`
(evaluation.py lines 545-547):
`difference = np.setdiff1d(np.unique(prediction), np.unique(prediction[labels]))`,
`difference = difference[difference > 0]`, `n_clusters = len(difference)`.
`labels` is the `input_labels` vector, an *integer* (0/1) array — `data.y` is
created with `dtype=torch.long` (dataset.py line 264) — so `prediction[labels]`
is integer fancy indexing: element `i` is `prediction[labels[i]]`, i.e. a
value taken at vertex 0 or vertex 1, not boolean masking.  (Index values are
0/1, in bounds for any real prediction vector; out-of-bounds access would
raise in numpy and is modelled by the `getD` default.) -/
def number_clusters_code (prediction labels : List ℕ) : ℕ :=
  let fancy := labels.map (fun l => prediction.getD l 0)
  let difference := prediction.dedup.filter (fun v => decide (v ∉ fancy))
  (difference.filter (fun v => decide (0 < v))).length

/-- The `number_clusters` value described by the specification: the count of
distinct positive predicted cluster ids that appear on no true-label vertex
(`np.unique(prediction[labels])` read as boolean masking of the label
vertices).  This definition follows the spec's words, for comparison with
`number_clusters_code`. -/
def number_clusters_spec (prediction labels : List ℕ) : ℕ :=
  let labelVals := maskBy (labels.map (fun l => decide (l ≠ 0))) prediction
  let difference := prediction.dedup.filter (fun v => decide (v ∉ labelVals))
  (difference.filter (fun v => decide (0 < v))).length

/-- The data `calculate_saliency` needs for one subject: the
`cluster_thresholded` vector and the `input_features` (hemisphere splitting
and tensor conversion are external shape transforms and are left implicit). -/
structure SaliencySubjectData : Type where
  cluster_thresholded : List ℚ
  input_features : List ℚ
deriving DecidableEq

/-- One subject's entry in `self.data_dictionary`, restricted to the two keys
the saliency helper reads (each may be absent, which raises the `KeyError`
the helper catches). -/
structure DictEntry : Type where
  cluster_thresholded : Option (List ℚ)
  input_features : Option (List ℚ)
deriving DecidableEq

/-- The helper `_load_data_from_dict(subj_id)` of `calculate_saliency`
(evaluation.py lines 456-469): `False` (here `none`) when
`self.data_dictionary` is `None`, when the subject is missing, or when one of
the two keys is missing. -/
def load_data_from_dict (dd : Option (List (String × DictEntry))) (subj : String) :
    Option SaliencySubjectData :=
  match dd with
  | none => none
  | some d =>
    match lookupKey d subj with
    | none => none
    | some e =>
      match e.cluster_thresholded, e.input_features with
      | some ct, some fts => some ⟨ct, fts⟩
      | _, _ => none

/-- The helper `_load_data_from_file(subj_id)` of `calculate_saliency`
(evaluation.py lines 471-486): `False` (here `none`) when
`load_prediction` finds no `prediction_clustered` dataset; the input features
are re-read from the dataset (always available, passed as `datasetFeatures`). -/
def load_data_from_file_saliency (file : Option HStore) (subj : String)
    (datasetFeatures : List ℚ) : Option SaliencySubjectData :=
  match load_prediction file subj "prediction_clustered" with
  | none => none
  | some ct => some ⟨ct, datasetFeatures⟩

/-- A Python call to `_load_data_from_dict` with an explicit positional
argument list.  The function has exactly one required positional parameter
`subj_id`, so any other arity raises a `TypeError`. -/
def call_load_data_from_dict (dd : Option (List (String × DictEntry)))
    (args : List String) : Except String (Option SaliencySubjectData) :=
  match args with
  | [subj] => .ok (load_data_from_dict dd subj)
  | _ => .error "TypeError: _load_data_from_dict missing 1 required positional argument"

/-- The data-acquisition part of `Evaluator.calculate_saliency` for one
subject (evaluation.py lines 496-505): try the in-memory dictionary, then the
hdf5 file, then recompute.  The recompute path first runs
`self.load_predict_data(store_predictions=True)` — with its default ROC
threshold grid, so its tail runs (`load_predict_data_tail`) — then
`threshold_and_cluster`, leaving the recomputed dictionary `ddRecomputed`;
line 503 then calls `_load_data_from_dict()` with **no** `subj_id` argument.
Line 505 raises `ValueError` when the final lookup still returns `False`. -/
def calculate_saliency_get_data (attrs : Attrs) (dd : Option (List (String × DictEntry)))
    (file : Option HStore) (subj : String) (datasetFeatures : List ℚ)
    (ddRecomputed : Option (List (String × DictEntry))) : Except String SaliencySubjectData :=
  match load_data_from_dict dd subj with
  | some d => .ok d
  | none =>
    match load_data_from_file_saliency file subj datasetFeatures with
    | some d => .ok d
    | none =>
      match load_predict_data_tail attrs (some default_roc_thresholds) true with
      | .error e => .error e
      | .ok _ =>
        match call_load_data_from_dict ddRecomputed [] with
        | .error e => .error e
        | .ok (some d) => .ok d
        | .ok none =>
          .error "ValueError: Could not successfully calculate predictions and thresholds for saliency calculation."

/-- `torch.mean(torch.stack(xss), axis=0)` on a non-empty list of equal-length
vectors (evaluation.py lines 231-233). -/
def vecMean (xss : List (List ℚ)) : List ℚ :=
  match xss with
  | [] => []
  | x :: _ => (List.range x.length).map (fun i => ((xss.map (fun xs => xs.getD i 0)).sum) / (xss.length : ℚ))

/-- The per-hemisphere prediction of `Evaluator.load_predict_data`
(evaluation.py lines 219-246).  Model evaluation is external: `modelPred`
stands for `torch.exp(estimates["log_softmax"])[:, 1]` on the full input and
`modelDist` for `estimates["non_lesion_logits"][:, 0]`; under MC dropout,
`dropoutPreds j` / `dropoutDists j` stand for the same quantities on the
`j`-th dropout-masked input.  When `"distance_regression"` is not among the
loss-dictionary keys, the distance map is
`torch.full((len(prediction), 1), torch.nan)[:, 0]`, a NaN (`none`) vector of
the prediction's length — in both the dropout and the plain branch. -/
def predict_one_hemi (lossKeys : List String) (dropout : Bool) (dropoutN : ℕ)
    (dropoutPreds dropoutDists : ℕ → List ℚ) (modelPred modelDist : List ℚ) :
    List ℚ × List (Option ℚ) :=
  if dropout then
    let prediction := vecMean ((List.range dropoutN).map dropoutPreds)
    let distanceMap :=
      if lossKeys.contains "distance_regression" then
        (vecMean ((List.range dropoutN).map dropoutDists)).map some
      else List.replicate prediction.length none
    (prediction, distanceMap)
  else
    let prediction := modelPred
    let distanceMap :=
      if lossKeys.contains "distance_regression" then modelDist.map some
      else List.replicate prediction.length none
    (prediction, distanceMap)

/-- The `subject_dictionary` assembled after both hemispheres of one subject
have been processed (evaluation.py lines 247-259): each per-hemisphere vector
is restricted to the cortex mask and the two hemispheres are concatenated;
`borderzone` is `geodesic distance < 20`. -/
structure SubjectRecord : Type where
  input_labels : List ℕ
  result : List ℚ
  distance_map : List (Option ℚ)
  borderzone : List Bool

/-- One subject's pass through the loop body of `load_predict_data`
(evaluation.py lines 204-259), with the external per-hemisphere model outputs,
labels and geodesic distances as parameters. -/
def load_predict_subject (lossKeys : List String) (dropout : Bool) (dropoutN : ℕ)
    (dropoutPredsL dropoutDistsL dropoutPredsR dropoutDistsR : ℕ → List ℚ)
    (modelPredL modelDistL modelPredR modelDistR : List ℚ)
    (labelsL labelsR : List ℕ) (geoL geoR : List ℚ) (cortexMask : List Bool) :
    SubjectRecord :=
  let hemiL := predict_one_hemi lossKeys dropout dropoutN dropoutPredsL dropoutDistsL modelPredL modelDistL
  let hemiR := predict_one_hemi lossKeys dropout dropoutN dropoutPredsR dropoutDistsR modelPredR modelDistR
  { input_labels := maskBy cortexMask labelsL ++ maskBy cortexMask labelsR
    result := maskBy cortexMask hemiL.1 ++ maskBy cortexMask hemiR.1
    distance_map := maskBy cortexMask hemiL.2 ++ maskBy cortexMask hemiR.2
    borderzone := (maskBy cortexMask geoL ++ maskBy cortexMask geoR).map (fun g => decide (g < 20)) }

/-! ### Clusterer lemmas -/

theorem mem_zipWith_stamp {cid : ℕ} : ∀ (a : List Bool) (b : List ℕ) {x : ℕ},
    x ∈ List.zipWith (fun p q => if p then cid else q) a b → x = cid ∨ x ∈ b
  | [], _, _, h => by simp at h
  | _ :: _, [], _, h => by simp at h
  | p :: ps, q :: qs, x, h => by
    rw [List.zipWith_cons_cons, List.mem_cons] at h
    rcases h with h | h
    · cases p with
      | true => exact Or.inl h
      | false => exact Or.inr (h ▸ List.mem_cons_self q qs)
    · rcases mem_zipWith_stamp ps qs h with h' | h'
      · exact Or.inl h'
      · exact Or.inr (List.mem_cons_of_mem q h')

theorem mem_stampIsland {mask incl : List Bool} {cid x : ℕ} {islands : List ℕ}
    (hx : x ∈ stampIsland mask incl cid islands) : x = cid ∨ x ∈ islands :=
  mem_zipWith_stamp (scatter mask incl) islands hx

theorem clusterStep_invariant (mask : List Bool) (labels : List ℕ) (minArea ic : ℕ)
    (st : List ℕ × ℕ) (i : ℕ)
    (h1 : ic ≤ st.2) (h2 : ∀ x ∈ st.1, x = 0 ∨ (ic < x ∧ x ≤ st.2)) :
    ic ≤ (clusterStep mask labels minArea st i).2 ∧
      ∀ x ∈ (clusterStep mask labels minArea st i).1,
        x = 0 ∨ (ic < x ∧ x ≤ (clusterStep mask labels minArea st i).2) := by
  unfold clusterStep
  by_cases hc : minArea ≤ (labels.map (fun l => decide (l = i))).count true
  · simp only [hc, if_true]
    refine ⟨le_trans h1 (Nat.le_succ _), ?_⟩
    intro x hx
    rcases mem_stampIsland hx with rfl | hx
    · exact Or.inr ⟨lt_of_le_of_lt h1 (Nat.lt_succ_self _), le_refl _⟩
    · rcases h2 x hx with rfl | ⟨hl, hr⟩
      · exact Or.inl rfl
      · exact Or.inr ⟨hl, le_trans hr (Nat.le_succ _)⟩
  · simp only [hc, if_false]
    exact ⟨h1, h2⟩

theorem foldl_clusterStep_invariant (mask : List Bool) (labels : List ℕ) (minArea ic : ℕ) :
    ∀ (idxs : List ℕ) (st : List ℕ × ℕ),
      ic ≤ st.2 → (∀ x ∈ st.1, x = 0 ∨ (ic < x ∧ x ≤ st.2)) →
      ic ≤ (idxs.foldl (clusterStep mask labels minArea) st).2 ∧
        ∀ x ∈ (idxs.foldl (clusterStep mask labels minArea) st).1,
          x = 0 ∨ (ic < x ∧ x ≤ (idxs.foldl (clusterStep mask labels minArea) st).2)
  | [], st, h1, h2 => ⟨h1, h2⟩
  | i :: idxs, st, h1, h2 => by
    have h := clusterStep_invariant mask labels minArea ic st i h1 h2
    simpa [List.foldl_cons] using
      foldl_clusterStep_invariant mask labels minArea ic idxs _ h.1 h.2

/-- Every entry of the clusterer's output vector is either background `0` or an
id strictly greater than the incoming `island_count`. -/
theorem mem_cluster_and_area_threshold {mask : List Bool} {labels : List ℕ}
    {nComp ic minArea x : ℕ}
    (hx : x ∈ cluster_and_area_threshold mask labels nComp ic minArea) :
    x = 0 ∨ ic < x := by
  have h := foldl_clusterStep_invariant mask labels minArea ic (List.range nComp)
    (List.replicate mask.length 0, ic) (le_refl ic)
    (fun x hx => Or.inl (List.eq_of_mem_replicate hx))
  rcases h.2 x hx with h' | ⟨h', _⟩
  · exact Or.inl h'
  · exact Or.inr h'

theorem le_foldl_max : ∀ (xs : List ℕ) (a : ℕ), a ≤ xs.foldl max a
  | [], a => le_refl a
  | x :: xs, a => le_trans (le_max_left a x) (le_foldl_max xs (max a x))

theorem mem_le_foldl_max : ∀ (xs : List ℕ) (a x : ℕ), x ∈ xs → x ≤ xs.foldl max a
  | [], _, _, h => absurd h (List.not_mem_nil _)
  | y :: xs, a, x, h => by
    rcases List.mem_cons.mp h with rfl | h
    · exact le_trans (le_max_right a x) (le_foldl_max xs _)
    · exact mem_le_foldl_max xs _ x h

theorem le_npMax {xs : List ℕ} {x : ℕ} (hx : x ∈ xs) : x ≤ npMax xs :=
  mem_le_foldl_max xs 0 x hx

/-- Claim C2: running the clusterer on the left hemisphere and then on the
right hemisphere with the shared running `island_count` (advanced by `np.max`
of the left result) never assigns the same positive cluster id in both
hemispheres — for any thresholded boolean masks and any connected-component
labelings, hence for any adjacency. -/
theorem threshold_and_cluster_ids_disjoint
    (maskL maskR : List Bool) (labelsL labelsR : List ℕ) (nCompL nCompR minArea : ℕ)
    (i j : ℕ)
    (hi : i ∈ (threshold_and_cluster_hemis maskL maskR labelsL labelsR nCompL nCompR minArea).1)
    (hj : j ∈ (threshold_and_cluster_hemis maskL maskR labelsL labelsR nCompL nCompR minArea).2)
    (hip : 0 < i) (hjp : 0 < j) : i ≠ j := by
  simp only [threshold_and_cluster_hemis] at hi hj
  have hiMax : i ≤ npMax (cluster_and_area_threshold maskL labelsL nCompL 0 minArea) :=
    le_npMax hi
  rcases mem_cluster_and_area_threshold hj with rfl | hj'
  · exact absurd hjp (lt_irrefl 0)
  · omega

/-- Claim C2 witness: a concrete run (single-vertex masks, one surviving
component per hemisphere) in which the left id 1 and right id 2 differ. -/
theorem threshold_and_cluster_ids_disjoint_witness :
    1 ∈ (threshold_and_cluster_hemis [true] [true] [0] [0] 1 1 1).1 ∧
    2 ∈ (threshold_and_cluster_hemis [true] [true] [0] [0] 1 1 1).2 ∧
    (0 : ℕ) < 1 ∧ (0 : ℕ) < 2 ∧ (1 : ℕ) ≠ 2 :=
  ⟨by decide, by decide, by decide, by decide,
    threshold_and_cluster_ids_disjoint [true] [true] [0] [0] 1 1 1 1 2
      (by decide) (by decide) (by decide) (by decide)⟩

theorem scatter_length : ∀ (mask incl : List Bool), (scatter mask incl).length = mask.length
  | [], _ => rfl
  | true :: ms, incl => by simp [scatter, scatter_length ms incl.tail]
  | false :: ms, incl => by simp [scatter, scatter_length ms incl]

theorem zipWith_replicate_right {α β γ : Type} (f : α → β → γ) (c : β) :
    ∀ (xs : List α), List.zipWith f xs (List.replicate xs.length c) = xs.map (fun a => f a c)
  | [] => rfl
  | a :: xs => by
    simp [List.replicate_succ, zipWith_replicate_right f c xs]

theorem count_true_map_decide (labels : List ℕ) (i : ℕ) :
    ((labels.map (fun l => decide (l = i))).count true) = labels.count i := by
  induction labels with
  | nil => rfl
  | cons a l ih =>
    simp only [List.map_cons, List.count_cons, ih]
    by_cases h : a = i <;> simp [h]

/-- Claim C8: for a mask whose true vertices split into exactly two connected
components, of sizes 5 (component label 0) and 200 (component label 1), and
`min_area_threshold = 100`, the clusterer output is `islandCount + 1` exactly
on the 200-vertex component and `0` everywhere else (so exactly one island
survives, with a single id), and the internal island counter advances by
exactly 1. -/
theorem cluster_two_components (mask : List Bool) (labels : List ℕ) (ic : ℕ)
    (hlen : labels.length = mask.count true)
    (h0 : labels.count 0 = 5) (h1 : labels.count 1 = 200)
    (hlt : ∀ l ∈ labels, l < 2) :
    cluster_and_area_threshold mask labels 2 ic 100 =
      (scatter mask (labels.map (fun l => decide (l = 1)))).map
        (fun b => if b then ic + 1 else 0) ∧
    (cluster_and_area_threshold_full mask labels 2 ic 100).2 = ic + 1 := by
  have hc0 : ((labels.map (fun l => decide (l = 0))).count true) = 5 := by
    rw [count_true_map_decide, h0]
  have hc1 : ((labels.map (fun l => decide (l = 1))).count true) = 200 := by
    rw [count_true_map_decide, h1]
  have hr : List.range 2 = [0, 1] := rfl
  have hs0 : clusterStep mask labels 100 (List.replicate mask.length 0, ic) 0 =
      (List.replicate mask.length 0, ic) := by
    simp [clusterStep, hc0]
  have hs1 : clusterStep mask labels 100 (List.replicate mask.length 0, ic) 1 =
      (stampIsland mask (labels.map (fun l => decide (l = 1))) (ic + 1)
        (List.replicate mask.length 0), ic + 1) := by
    simp [clusterStep, hc1]
  have hstamp : stampIsland mask (labels.map (fun l => decide (l = 1))) (ic + 1)
      (List.replicate mask.length 0) =
      (scatter mask (labels.map (fun l => decide (l = 1)))).map
        (fun b => if b then ic + 1 else 0) := by
    unfold stampIsland
    rw [← scatter_length mask (labels.map (fun l => decide (l = 1))),
      zipWith_replicate_right]
  constructor
  · unfold cluster_and_area_threshold cluster_and_area_threshold_full
    rw [hr]
    simp only [List.foldl_cons, List.foldl_nil, hs0, hs1, hstamp]
  · unfold cluster_and_area_threshold_full
    rw [hr]
    simp only [List.foldl_cons, List.foldl_nil, hs0, hs1]

/-- Concrete mask for the claim C8 witness: 205 true vertices. -/
def maskC8 : List Bool := List.replicate 205 true

/-- Concrete component labeling for the claim C8 witness: a 5-vertex component
(label 0) followed by a 200-vertex component (label 1). -/
def labelsC8 : List ℕ := List.replicate 5 0 ++ List.replicate 200 1

set_option maxRecDepth 100000 in
/-- Claim C8 witness: the theorem instantiated on a concrete 205-vertex mask
with components of sizes 5 and 200. -/
theorem cluster_two_components_witness :
    (labelsC8.length = maskC8.count true ∧ labelsC8.count 0 = 5 ∧
      labelsC8.count 1 = 200 ∧ ∀ l ∈ labelsC8, l < 2) ∧
    (cluster_and_area_threshold maskC8 labelsC8 2 0 100 =
        (scatter maskC8 (labelsC8.map (fun l => decide (l = 1)))).map
          (fun b => if b then 0 + 1 else 0) ∧
      (cluster_and_area_threshold_full maskC8 labelsC8 2 0 100).2 = 0 + 1) :=
  ⟨⟨by decide, by decide, by decide, by decide⟩,
    cluster_two_components maskC8 labelsC8 0 (by decide) (by decide) (by decide) (by decide)⟩

/-! ### Sigmoid lemmas -/

theorem zipWith_map_map {α β γ δ : Type} (g : α → β → γ) (f : α → β) (h : γ → δ) :
    ∀ (x : List α), (List.zipWith g x (x.map f)).map h = x.map (fun a => h (g a (f a)))
  | [] => rfl
  | a :: l => by simp [zipWith_map_map g f h l]

/-- For `k ≠ 0` the vectorized stages of `sigmoid` compose into the pointwise
function `sigmoidElem`. -/
theorem sigmoid_eq_map (x : List ℚ) {k : ℤ} (m ymin ymax : ℚ) (hk : k ≠ 0) :
    sigmoid x k m ymin ymax = x.map (sigmoidElem k m ymin ymax) := by
  simp only [sigmoid, sigmoidElem, if_neg hk, List.map_map]
  exact zipWith_map_map _ _ _ x

/-- Pointwise range bound for `sigmoidElem` away from the epsilon window just
below `x = 2m`.  (At `xi = 2m (1 - eps)` exactly, rational semantics and
numpy differ — `0 ^ (-k)` is `0` here and `inf` there — but the resulting
value lies in `[ymin, ymax]` either way.) -/
theorem sigmoidElem_mem_Icc {k : ℤ} {m ymin ymax xi : ℚ} (hm : 0 < m)
    (hy : ymin ≤ ymax) (hxi : 0 ≤ xi)
    (hcond : xi / (m * 2) + sigEps ≤ 1 ∨ m * 2 < xi) :
    ymin ≤ sigmoidElem k m ymin ymax xi ∧ sigmoidElem k m ymin ymax xi ≤ ymax := by
  have heps : (0:ℚ) < sigEps := by norm_num [sigEps]
  have hx2 : (0:ℚ) < m * 2 := by linarith
  simp only [sigmoidElem]
  rcases hcond with hlow | hhigh
  · have hdiv : 0 ≤ xi / (m * 2) := div_nonneg hxi hx2.le
    have hxm : ¬ (m * 2 < xi) := by
      have hlt1 : xi / (m * 2) < 1 := by linarith
      have := (div_lt_one hx2).mp hlt1
      linarith
    rw [if_neg hxm]
    set w : ℚ := xi / (m * 2) + sigEps with hw
    have hw0 : 0 < w := by rw [hw]; linarith
    have ht0 : (0:ℚ) ≤ 1 / w - 1 := by
      have := one_le_one_div hw0 hlow
      linarith
    have hu : (0:ℚ) ≤ (1 / w - 1) ^ (-k) := zpow_nonneg ht0 _
    set u : ℚ := (1 / w - 1) ^ (-k) with hu'
    have hden : (0:ℚ) < 1 + u := by linarith
    have hr0 : (0:ℚ) ≤ 1 / (1 + u) := by positivity
    have hr1 : 1 / (1 + u) ≤ 1 := by
      rw [div_le_one hden]; linarith
    set r : ℚ := 1 / (1 + u) with hr'
    have hs1 : ymin ≤ r * (ymax - ymin) + ymin := by nlinarith
    have hs2 : r * (ymax - ymin) + ymin ≤ ymax := by nlinarith
    by_cases hcl : ymax < r * (ymax - ymin) + ymin
    · rw [if_pos hcl]; exact ⟨hy, le_refl _⟩
    · rw [if_neg hcl]; exact ⟨hs1, hs2⟩
  · rw [if_pos hhigh, if_neg (not_lt.mpr hy)]
    exact ⟨le_refl _, hy⟩

/-- Claim C3 counterexample: with the realistic parameters `k = 1` (from the
optimisation grid), `m = 1/2`, `ymin = 3/100`, `ymax = 1/2`, the input
`x = 1 = 2m` — a legitimate non-negative distance — produces an output
strictly below `ymin` (namely `3/100 - 47/10^17`): the epsilon guard makes
`1/(x/xmax + eps) - 1` slightly negative at `x = 2m`, an odd negative power
keeps the sign, and the `x > xmax` clamp does not fire because `x` is not
strictly greater than `xmax`.  So the claim "every element of the output lies
in `[ymin, ymax]` for every non-negative input and every parameter setting"
is false. -/
theorem sigmoid_range_counterexample :
    ¬ (∀ y ∈ sigmoid [1] 1 (1/2) (3/100) (1/2), (3/100 : ℚ) ≤ y ∧ y ≤ 1/2) := by
  simp only [sigmoid, sigEps]
  norm_num

/-- Claim C3 (amended): for `m > 0`, `ymin ≤ ymax`, and non-negative inputs
that avoid the epsilon-wide window just below `2m` (each element satisfies
`x/(2m) + 1e-15 ≤ 1` or `x > 2m`), every element of
`sigmoid(x, k, m, ymin, ymax)` lies in the closed interval `[ymin, ymax]`. -/
theorem sigmoid_range_amended (x : List ℚ) (k : ℤ) (m ymin ymax : ℚ)
    (hm : 0 < m) (hy : ymin ≤ ymax)
    (hx : ∀ xi ∈ x, 0 ≤ xi ∧ (xi / (m * 2) + sigEps ≤ 1 ∨ m * 2 < xi)) :
    ∀ y ∈ sigmoid x k m ymin ymax, ymin ≤ y ∧ y ≤ ymax := by
  by_cases hk : k = 0
  · subst hk
    simp only [sigmoid, if_pos]
    intro y hy'
    rcases List.mem_map.mp hy' with ⟨xi, _, rfl⟩
    exact ⟨le_refl _, hy⟩
  · rw [sigmoid_eq_map x m ymin ymax hk]
    intro y hy'
    rcases List.mem_map.mp hy' with ⟨xi, hxi, rfl⟩
    exact sigmoidElem_mem_Icc hm hy (hx xi hxi).1 (hx xi hxi).2

/-- Claim C3 witness: the amended range bound applied to the concrete inputs
`[0, 1/4, 3]` with `k = 2`, `m = 1/2`, `ymin = 3/100`, `ymax = 1/2`. -/
theorem sigmoid_range_amended_witness :
    ((0:ℚ) < 1/2 ∧ (3/100 : ℚ) ≤ 1/2 ∧
      (∀ xi ∈ ([0, 1/4, 3] : List ℚ), 0 ≤ xi ∧
        (xi / (1/2 * 2) + sigEps ≤ 1 ∨ 1/2 * 2 < xi))) ∧
    ∀ y ∈ sigmoid [0, 1/4, 3] 2 (1/2) (3/100) (1/2), (3/100 : ℚ) ≤ y ∧ y ≤ 1/2 :=
  ⟨⟨by norm_num, by norm_num, by simp only [sigEps]; norm_num⟩,
    sigmoid_range_amended [0, 1/4, 3] 2 (1/2) (3/100) (1/2) (by norm_num) (by norm_num)
      (by simp only [sigEps]; norm_num)⟩

/-- Claim C9 counterexample: with `ymin = 1 > 0 = ymax` the element `x = 1`,
strictly greater than `2m = 1/2` and with `k = 1 ≠ 0`, is first set to
`ymin = 1` by the `x > xmax` mask but then clamped to `ymax = 0` by the final
`scaled_res[scaled_res > ymax] = ymax` step, so the output is not `ymin`:
the claim fails when `ymin > ymax`. -/
theorem sigmoid_gt_2m_counterexample :
    2 * (1/4 : ℚ) < 1 ∧ (1 : ℤ) ≠ 0 ∧ (sigmoid [1] 1 (1/4) 1 0)[0]? ≠ some 1 := by
  refine ⟨by norm_num, by norm_num, ?_⟩
  simp only [sigmoid, sigEps]
  norm_num

/-- Claim C9 (amended): provided `ymin ≤ ymax`, every input element strictly
greater than `2m` (with `k` nonzero) yields exactly `ymin`. -/
theorem sigmoid_gt_2m_eq_ymin (x : List ℚ) (k : ℤ) (m ymin ymax : ℚ)
    (hk : k ≠ 0) (hy : ymin ≤ ymax) (i : ℕ) (hi : i < x.length)
    (hx : 2 * m < x[i]) :
    (sigmoid x k m ymin ymax)[i]? = some ymin := by
  rw [sigmoid_eq_map x m ymin ymax hk, List.getElem?_map, List.getElem?_eq_getElem hi]
  have h1 : m * 2 < x[i] := by linarith
  simp [sigmoidElem, h1, not_lt.mpr hy]

/-- Claim C9 witness: the amended theorem applied at `x = [1]`, `k = 1`,
`m = 1/4`, `ymin = 3/100`, `ymax = 1/2`. -/
theorem sigmoid_gt_2m_eq_ymin_witness :
    ((1 : ℤ) ≠ 0 ∧ (3/100 : ℚ) ≤ 1/2 ∧ 0 < ([(1:ℚ)]).length ∧
      2 * (1/4 : ℚ) < ([(1:ℚ)])[0]) ∧
    (sigmoid [1] 1 (1/4) (3/100) (1/2))[0]? = some (3/100) :=
  ⟨⟨by norm_num, by norm_num, by simp, by norm_num⟩,
    sigmoid_gt_2m_eq_ymin [1] 1 (1/4) (3/100) (1/2) (by norm_num) (by norm_num) 0
      (by simp) (by norm_num)⟩

/-! ### Prediction store lemmas -/

theorem lookupKey_storeSet_self (st : HStore) (k : HKey) (v : List ℚ) :
    lookupKey (storeSet st k v) k = some v := by
  simp [storeSet, lookupKey]

theorem lookupKey_filter_ne {α β : Type} [DecidableEq α] {k k' : α} (h : k ≠ k') :
    ∀ (st : List (α × β)),
      lookupKey (st.filter (fun p => decide (p.1 ≠ k'))) k = lookupKey st k
  | [] => rfl
  | p :: st => by
    have ih := lookupKey_filter_ne (β := β) h st
    by_cases hp : p.1 = k'
    · have hpk : ¬ (p.1 = k) := fun hh => h (hh ▸ hp)
      have hf : List.filter (fun q => decide (q.1 ≠ k')) (p :: st) =
          List.filter (fun q => decide (q.1 ≠ k')) st := by
        rw [List.filter_cons]; simp [hp]
      rw [hf, ih]
      simp only [lookupKey]
      rw [if_neg hpk]
    · have hf : List.filter (fun q => decide (q.1 ≠ k')) (p :: st) =
          p :: List.filter (fun q => decide (q.1 ≠ k')) st := by
        rw [List.filter_cons]; simp [hp]
      rw [hf]
      simp only [lookupKey]
      rw [ih]

theorem lookupKey_storeSet_ne (st : HStore) (k k' : HKey) (v : List ℚ) (h : k ≠ k') :
    lookupKey (storeSet st k' v) k = lookupKey st k := by
  have hk : ¬ (k' = k) := fun hh => h hh.symm
  simp only [storeSet, lookupKey, if_neg hk]
  exact lookupKey_filter_ne h st

theorem hemiSlice_append (p : List ℚ) (n : ℕ) (h : p.length = n * 2) :
    hemiSlice p 0 n ++ hemiSlice p 1 n = p := by
  unfold hemiSlice
  have h0 : (0 : ℕ) * n = 0 := by omega
  have h1 : (1 : ℕ) * n = n := by omega
  rw [h0, h1, List.drop_zero]
  have hlen : (p.drop n).length ≤ n := by simp [h]; omega
  rw [List.take_of_length_le hlen]
  exact List.take_append_drop n p

/-- Claim C4: `save_prediction` followed by `load_prediction` with the same
subject and dataset kind returns exactly the saved array (of length twice the
per-hemisphere vertex count): the left-then-right hemisphere slicing on save
is inverted by the left-then-right concatenation on load. -/
theorem save_load_roundtrip (file : Option HStore) (subject datasetStr : String)
    (prediction : List ℚ) (nvertHemi : ℕ) (st' : HStore)
    (hlen : prediction.length = nvertHemi * 2)
    (hsave : save_prediction file subject prediction datasetStr nvertHemi = some st') :
    load_prediction (some st') subject datasetStr = some prediction := by
  simp only [save_prediction, if_pos hlen] at hsave
  have hst : st' = storeSet
      (storeSet (file.getD []) (subject, "lh", datasetStr) (hemiSlice prediction 0 nvertHemi))
      (subject, "rh", datasetStr) (hemiSlice prediction 1 nvertHemi) :=
    (Option.some.inj hsave).symm
  subst hst
  have hne : ((subject, "lh", datasetStr) : HKey) ≠ (subject, "rh", datasetStr) := by
    simp
  simp only [load_prediction]
  rw [lookupKey_storeSet_ne _ _ _ _ hne, lookupKey_storeSet_self, lookupKey_storeSet_self]
  simp only []
  rw [hemiSlice_append prediction nvertHemi hlen]

/-- Claim C4 witness: a concrete round-trip through an initially missing file
with `nvert_hemi = 2` and the array `[1, 2, 3, 4]`. -/
theorem save_load_roundtrip_witness :
    (([1, 2, 3, 4] : List ℚ).length = 2 * 2 ∧
      save_prediction none "subj" [1, 2, 3, 4] "prediction" 2 =
        some [(("subj", "rh", "prediction"), [3, 4]), (("subj", "lh", "prediction"), [1, 2])]) ∧
    load_prediction
      (some [(("subj", "rh", "prediction"), [3, 4]), (("subj", "lh", "prediction"), [1, 2])])
      "subj" "prediction" = some [1, 2, 3, 4] :=
  ⟨⟨by simp, by rfl⟩,
    save_load_roundtrip none "subj" "prediction" [1, 2, 3, 4] 2 _ (by simp) (by rfl)⟩

/-- Claim C7: `load_prediction` returns the sentinel `None` — and, being a
total function into `Option`, raises nothing — whenever the predictions file
does not exist or either hemisphere's `subject/hemi/dataset_str` key is
absent from it (the `KeyError` of evaluation.py line 771 is caught at line
772 and converted into the `None` result). -/
theorem load_prediction_not_found (file : Option HStore) (subject datasetStr : String)
    (h : file = none ∨ ∃ st, file = some st ∧
      (lookupKey st (subject, "lh", datasetStr) = none ∨
        lookupKey st (subject, "rh", datasetStr) = none)) :
    load_prediction file subject datasetStr = none := by
  rcases h with rfl | ⟨st, rfl, h⟩
  · rfl
  · simp only [load_prediction]
    rcases h with h | h
    · rw [h]
    · cases h2 : lookupKey st (subject, "lh", datasetStr) <;> rw [h]

/-- Claim C7 witness: loading from a nonexistent file, and from an existing
file without the requested subject key, both return `None`. -/
theorem load_prediction_not_found_witness :
    load_prediction none "subj" "prediction" = none ∧
    load_prediction (some [(("other", "lh", "prediction"), [1])]) "subj" "prediction" = none :=
  ⟨load_prediction_not_found none "subj" "prediction" (Or.inl rfl),
    load_prediction_not_found (some [(("other", "lh", "prediction"), [1])]) "subj" "prediction"
      (Or.inr ⟨_, rfl, Or.inl (by rfl)⟩)⟩

/-! ### Dropout-suffix attribute lemmas -/

theorem lookupKey_setAttr_ne (a : Attrs) (n m : String) (v : AttrVal) (h : ¬ (n = m)) :
    lookupKey (setAttr a n v) m = lookupKey a m := by
  simp only [setAttr, lookupKey, if_neg h]

theorem lookup_droput_disable (a : Attrs)
    (h : lookupKey a "droput_suffix" = none) :
    lookupKey (disable_mc_dropout a) "droput_suffix" = none := by
  unfold disable_mc_dropout
  rw [lookupKey_setAttr_ne _ _ _ _ (by decide), lookupKey_setAttr_ne _ _ _ _ (by decide), h]

theorem lookup_droput_enable (a : Attrs) (p : ℚ) (n : ℕ)
    (h : lookupKey a "droput_suffix" = none) :
    lookupKey (enable_mc_dropout a p n) "droput_suffix" = none := by
  unfold enable_mc_dropout
  rw [lookupKey_setAttr_ne _ _ _ _ (by decide), lookupKey_setAttr_ne _ _ _ _ (by decide),
    lookupKey_setAttr_ne _ _ _ _ (by decide), lookupKey_setAttr_ne _ _ _ _ (by decide), h]

theorem lookup_droput_applyOp (a : Attrs) (op : DropoutOp)
    (h : lookupKey a "droput_suffix" = none) :
    lookupKey (applyDropoutOp a op) "droput_suffix" = none := by
  cases op with
  | enable p n => exact lookup_droput_enable a p n h
  | disable => exact lookup_droput_disable a h

theorem lookup_droput_foldl : ∀ (ops : List DropoutOp) (a : Attrs),
    lookupKey a "droput_suffix" = none →
    lookupKey (ops.foldl applyDropoutOp a) "droput_suffix" = none
  | [], _, h => h
  | op :: ops, a, h =>
    lookup_droput_foldl ops (applyDropoutOp a op) (lookup_droput_applyOp a op h)

/-- No attribute named `droput_suffix` ever exists on an `Evaluator`:
`__init__` (which assigns `init` and ends with `disable_mc_dropout`) and any
sequence of enable/disable calls only ever assign the correctly spelled
names. -/
theorem lookup_droput_evaluator (init : Attrs) (ops : List DropoutOp)
    (h : lookupKey init "droput_suffix" = none) :
    lookupKey (evaluator_attrs init ops) "droput_suffix" = none :=
  lookup_droput_foldl ops (disable_mc_dropout init) (lookup_droput_disable init h)

/-- Claim C5: on every reachable `Evaluator` attribute state (construction
followed by any sequence of MC-dropout enable/disable calls, with `__init__`
never assigning the misspelled name), `save_sub_aucs` and `save_roc_scores`
raise `AttributeError: droput_suffix` — initialization only ever assigns
`dropout_suffix` — and consequently `load_predict_data` with its default ROC
threshold grid raises after the subject loop instead of returning. -/
theorem droput_suffix_attribute_error (init : Attrs) (ops : List DropoutOp)
    (suffix : String) (b : Bool)
    (h : lookupKey init "droput_suffix" = none) :
    save_sub_aucs (evaluator_attrs init ops) suffix = .error "AttributeError: droput_suffix" ∧
    save_roc_scores (evaluator_attrs init ops) suffix = .error "AttributeError: droput_suffix" ∧
    load_predict_data_tail (evaluator_attrs init ops) (some default_roc_thresholds) b =
      .error "AttributeError: droput_suffix" := by
  have hl := lookup_droput_evaluator init ops h
  have hget : getattr (evaluator_attrs init ops) "droput_suffix" =
      .error "AttributeError: droput_suffix" := by
    unfold getattr
    rw [hl]
    rfl
  have hsub : save_sub_aucs (evaluator_attrs init ops) suffix =
      .error "AttributeError: droput_suffix" := by
    unfold save_sub_aucs
    rw [hget]
  have hroc : ∀ s : String, save_roc_scores (evaluator_attrs init ops) s =
      .error "AttributeError: droput_suffix" := by
    intro s
    unfold save_roc_scores
    rw [hget]
  refine ⟨hsub, hroc suffix, ?_⟩
  unfold load_predict_data_tail
  rw [hroc ""]

/-- Claim C5 witness: the freshly constructed `Evaluator` (empty `init`, no
further dropout calls). -/
theorem droput_suffix_attribute_error_witness :
    (lookupKey ([] : Attrs) "droput_suffix" = none) ∧
    (save_sub_aucs (evaluator_attrs [] []) "" = .error "AttributeError: droput_suffix" ∧
      save_roc_scores (evaluator_attrs [] []) "" = .error "AttributeError: droput_suffix" ∧
      load_predict_data_tail (evaluator_attrs [] []) (some default_roc_thresholds) true =
        .error "AttributeError: droput_suffix") :=
  ⟨rfl, droput_suffix_attribute_error [] [] "" true rfl⟩

/-- Claim C6: the saliency data acquisition does *not* fall back gracefully to
the recompute path.  On a subject absent from both the in-memory dictionary
and the hdf5 file, the third path raises even though the recomputed
dictionary (third source) contains the subject's data: the inner
`load_predict_data` call raises `AttributeError: droput_suffix` (via
`save_roc_scores`, since `calculate_saliency` uses the default ROC grid), and
even absent that, line 503 calls `_load_data_from_dict()` without the
required `subj_id` argument, a guaranteed `TypeError`.  So a hard failure is
raised although the third source would have succeeded, contradicting the
claim that an error is raised only when all three sources fail. -/
theorem saliency_fallback_raises :
    load_data_from_dict none "subj" = none ∧
    load_data_from_file_saliency none "subj" [] = none ∧
    load_data_from_dict (some [("subj", ⟨some [1], some [2]⟩)]) "subj" = some ⟨[1], [2]⟩ ∧
    calculate_saliency_get_data (evaluator_attrs [] []) none none "subj" []
        (some [("subj", ⟨some [1], some [2]⟩)]) =
      .error "AttributeError: droput_suffix" ∧
    call_load_data_from_dict (some [("subj", ⟨some [1], some [2]⟩)]) [] =
      .error "TypeError: _load_data_from_dict missing 1 required positional argument" :=
  ⟨rfl, rfl, rfl, rfl, rfl⟩

/-! ### Metrics and prediction-pass lemmas -/

/-- Claim C1: the reported `number clusters` does **not** equal the count of
false-positive clusters.  On the concrete subject with clustered prediction
`[0, 0, 0, 7]` and integer labels `[0, 0, 0, 1]` — the single positive
cluster id 7 sits exactly on the labelled vertex, so the claim demands 0 —
the code computes 1, because `prediction[labels]` integer-fancy-indexes
vertices 0 and 1 (`input_labels` is an int64 array) instead of masking the
label vertices. -/
theorem number_clusters_divergence :
    number_clusters_code [0, 0, 0, 7] [0, 0, 0, 1] = 1 ∧
    number_clusters_spec [0, 0, 0, 7] [0, 0, 0, 1] = 0 := by
  constructor <;> rfl

theorem maskBy_replicate_length {α β : Type} (c : β) :
    ∀ (ms : List Bool) (xs : List α),
      (maskBy ms (List.replicate xs.length c)).length = (maskBy ms xs).length
  | [], _ => rfl
  | _ :: _, [] => rfl
  | b :: ms, x :: xs => by
    cases b <;>
      simp [List.replicate_succ, maskBy, maskBy_replicate_length c ms xs]

theorem mem_maskBy_replicate {β : Type} {c x : β} :
    ∀ {ms : List Bool} {n : ℕ}, x ∈ maskBy ms (List.replicate n c) → x = c
  | [], _, h => absurd h (List.not_mem_nil _)
  | _ :: _, 0, h => absurd h (List.not_mem_nil _)
  | b :: ms, n + 1, h => by
    rw [List.replicate_succ] at h
    cases b with
    | true =>
      rw [maskBy, if_pos rfl] at h
      rcases List.mem_cons.mp h with rfl | h'
      · rfl
      · exact mem_maskBy_replicate h'
    | false =>
      rw [maskBy, if_neg (by simp)] at h
      exact mem_maskBy_replicate h

/-- When `"distance_regression"` is not among the loss-dictionary keys, the
per-hemisphere distance map is a NaN vector of the prediction's length, in
both the dropout and the plain branch. -/
theorem predict_one_hemi_no_distreg (lossKeys : List String) (dropout : Bool)
    (dropoutN : ℕ) (dropoutPreds dropoutDists : ℕ → List ℚ) (modelPred modelDist : List ℚ)
    (hf : lossKeys.contains "distance_regression" = false) :
    (predict_one_hemi lossKeys dropout dropoutN dropoutPreds dropoutDists modelPred modelDist).2 =
      List.replicate
        (predict_one_hemi lossKeys dropout dropoutN dropoutPreds dropoutDists modelPred modelDist).1.length
        none := by
  have hmem : ¬ ("distance_regression" ∈ lossKeys) := by
    intro hm
    have h2 : lossKeys.contains "distance_regression" = true := List.elem_iff.mpr hm
    rw [h2] at hf
    cases hf
  cases dropout <;> simp [predict_one_hemi, hf, hmem]

/-- Claim C10: whenever the loss configuration has no `distance_regression`
entry, the subject dictionary built by the prediction pass still carries a
`distance_map` entry (the `SubjectRecord` field is always populated), of the
same length as the prediction `result`, filled entirely with the NaN sentinel
(`none`) — with MC dropout enabled or disabled. -/
theorem distance_map_nan_without_distance_regression
    (lossKeys : List String) (dropout : Bool) (dropoutN : ℕ)
    (dropoutPredsL dropoutDistsL dropoutPredsR dropoutDistsR : ℕ → List ℚ)
    (modelPredL modelDistL modelPredR modelDistR : List ℚ)
    (labelsL labelsR : List ℕ) (geoL geoR : List ℚ) (cortexMask : List Bool)
    (hf : lossKeys.contains "distance_regression" = false) :
    (load_predict_subject lossKeys dropout dropoutN dropoutPredsL dropoutDistsL
        dropoutPredsR dropoutDistsR modelPredL modelDistL modelPredR modelDistR
        labelsL labelsR geoL geoR cortexMask).distance_map.length =
      (load_predict_subject lossKeys dropout dropoutN dropoutPredsL dropoutDistsL
        dropoutPredsR dropoutDistsR modelPredL modelDistL modelPredR modelDistR
        labelsL labelsR geoL geoR cortexMask).result.length ∧
    ∀ v ∈ (load_predict_subject lossKeys dropout dropoutN dropoutPredsL dropoutDistsL
        dropoutPredsR dropoutDistsR modelPredL modelDistL modelPredR modelDistR
        labelsL labelsR geoL geoR cortexMask).distance_map, v = none := by
  simp only [load_predict_subject]
  rw [predict_one_hemi_no_distreg lossKeys dropout dropoutN dropoutPredsL dropoutDistsL
      modelPredL modelDistL hf,
    predict_one_hemi_no_distreg lossKeys dropout dropoutN dropoutPredsR dropoutDistsR
      modelPredR modelDistR hf]
  constructor
  · rw [List.length_append, List.length_append,
      maskBy_replicate_length, maskBy_replicate_length]
  · intro v hv
    rcases List.mem_append.mp hv with h | h
    · exact mem_maskBy_replicate h
    · exact mem_maskBy_replicate h

/-- Claim C10 witness: a concrete two-vertex subject with
`loss_dictionary = {"cross_entropy"}`, run with MC dropout enabled. -/
theorem distance_map_nan_witness :
    (["cross_entropy"].contains "distance_regression" = false) ∧
    ((load_predict_subject ["cross_entropy"] true 2 (fun _ => [1/2, 1/4]) (fun _ => [0, 0])
        (fun _ => [1/3, 1/5]) (fun _ => [0, 0]) [1/2, 1/4] [0, 0] [1/3, 1/5] [0, 0]
        [0, 1] [0, 0] [5, 30] [5, 30] [true, true]).distance_map.length =
      (load_predict_subject ["cross_entropy"] true 2 (fun _ => [1/2, 1/4]) (fun _ => [0, 0])
        (fun _ => [1/3, 1/5]) (fun _ => [0, 0]) [1/2, 1/4] [0, 0] [1/3, 1/5] [0, 0]
        [0, 1] [0, 0] [5, 30] [5, 30] [true, true]).result.length ∧
      ∀ v ∈ (load_predict_subject ["cross_entropy"] true 2 (fun _ => [1/2, 1/4]) (fun _ => [0, 0])
        (fun _ => [1/3, 1/5]) (fun _ => [0, 0]) [1/2, 1/4] [0, 0] [1/3, 1/5] [0, 0]
        [0, 1] [0, 0] [5, 30] [5, 30] [true, true]).distance_map, v = none) :=
  ⟨rfl,
    distance_map_nan_without_distance_regression ["cross_entropy"] true 2
      (fun _ => [1/2, 1/4]) (fun _ => [0, 0]) (fun _ => [1/3, 1/5]) (fun _ => [0, 0])
      [1/2, 1/4] [0, 0] [1/3, 1/5] [0, 0] [0, 1] [0, 0] [5, 30] [5, 30] [true, true] rfl⟩

end MeldGraph
